import Mathlib

/-!
Verification of the OPGL data service's regional routing and data
aggregation layer (`internal/services`, `internal/api`), shallowly embedded
in Lean 4.

Conventions of the embedding:
* Go `error` values are represented by their message strings; a Go
  `(T, error)` return value becomes `Option T × Option String` (exactly one
  side populated by the functions modelled here), and an internal
  `makeRequest`-style call result is an `Except String T`.
* Go `int`/`int64` become `Int`; HTTP status codes become `Nat`.
* Remote I/O is made explicit: each modelled operation takes the outcome
  of its upstream HTTP call(s) as a parameter (an `HTTPOutcome`, an
  `Except` result, or a function from match id / puuid to such results).
  The control flow around those outcomes is translated line by line from
  the Go source.
-/

namespace OPGL

/-! ## Domain model (`internal/models/models.go`) -/

/-- Embeds Go `time.Time` as the pair (seconds, nanoseconds) since the Unix
epoch, which is all of `time.Time` the service constructs or exposes. -/
structure GoTime where
  sec : Int
  nsec : Int
deriving DecidableEq

/-- `models.Summoner`. -/
structure Summoner where
  id : String
  accountId : String
  puuid : String
  name : String
  profileIconId : Int
  summonerLevel : Int
deriving DecidableEq

/-- `models.Participant`. -/
structure Participant where
  puuid : String
  summonerName : String
  championId : Int
  championName : String
  kills : Int
  deaths : Int
  assists : Int
  goldEarned : Int
  totalDamageDealtToChampions : Int
  totalDamageTaken : Int
  visionScore : Int
  totalMinionsKilled : Int
  win : Bool
  teamPosition : String
deriving DecidableEq

/-- `models.Match`. -/
structure Match where
  matchId : String
  gameCreation : GoTime
  gameDuration : Int
  gameMode : String
  gameType : String
  participants : List Participant
deriving DecidableEq

/-! ## Region router (`services.getRegionalURL`, `services.getMatchRegionalURL`) -/

/-- The platform routing table of `getRegionalURL`, kept as data exactly as
in the source. -/
def regionalRouting : List (String × String) :=
  [("na", "na1.api.riotgames.com"),
   ("euw", "euw1.api.riotgames.com"),
   ("eune", "eun1.api.riotgames.com"),
   ("kr", "kr.api.riotgames.com"),
   ("br", "br1.api.riotgames.com"),
   ("jp", "jp1.api.riotgames.com"),
   ("ru", "ru.api.riotgames.com"),
   ("oce", "oc1.api.riotgames.com"),
   ("tr", "tr1.api.riotgames.com"),
   ("lan", "la1.api.riotgames.com"),
   ("las", "la2.api.riotgames.com")]

/-- `services.getRegionalURL`: map lookup with fall-through to the `"na"`
entry (a Go map index on a missing key yields the zero value, modelled by
`getD ""`; `"na"` is present, so the default is never the empty string). -/
def getRegionalURL (region : String) : String :=
  match regionalRouting.lookup region with
  | some url => url
  | none => (regionalRouting.lookup "na").getD ""

/-- The continental routing table of `getMatchRegionalURL`. -/
def continentalRouting : List (String × String) :=
  [("na", "americas.api.riotgames.com"),
   ("br", "americas.api.riotgames.com"),
   ("lan", "americas.api.riotgames.com"),
   ("las", "americas.api.riotgames.com"),
   ("euw", "europe.api.riotgames.com"),
   ("eune", "europe.api.riotgames.com"),
   ("tr", "europe.api.riotgames.com"),
   ("ru", "europe.api.riotgames.com"),
   ("kr", "asia.api.riotgames.com"),
   ("jp", "asia.api.riotgames.com"),
   ("oce", "sea.api.riotgames.com")]

/-- `services.getMatchRegionalURL`: continental lookup with fall-through to
the `"na"` entry. -/
def getMatchRegionalURL (region : String) : String :=
  match continentalRouting.lookup region with
  | some url => url
  | none => (continentalRouting.lookup "na").getD ""

/-- The 11 region codes present in both routing tables. -/
def knownRegions : List String :=
  ["na", "euw", "eune", "kr", "br", "jp", "ru", "oce", "tr", "lan", "las"]

/-! ## Request execution (`services.makeRequest`) -/

/-- The decimal digit character for `d < 10`, as produced by `fmt`'s `%d`. -/
def digitChar (d : Nat) : Char := Char.ofNat (48 + d)

/-- The decimal digit string of `n`, most significant digit first: the
rendering `fmt.Errorf` gives a non-negative integer under `%d`. -/
def natToDigits (n : Nat) : List Char :=
  if _h : n < 10 then [digitChar n]
  else natToDigits (n / 10) ++ [digitChar (n % 10)]
decreasing_by exact Nat.div_lt_self (by omega) (by omega)

/-- String form of `natToDigits`. -/
def natRepr (n : Nat) : String := ⟨natToDigits n⟩

/-- Message of the error `makeRequest` returns when the HTTP round trip
itself fails (`"failed to execute request: %w"`): the transport-error
class. -/
def transportMsg (e : String) : String := "failed to execute request: " ++ e

/-- Message of the error `makeRequest` returns on a non-200 status
(`"API request failed with status %d: %s"`): the upstream-error class. -/
def upstreamMsg (status : Nat) (body : String) : String :=
  "API request failed with status " ++ natRepr status ++ ": " ++ body

/-- Message of the error `makeRequest` returns when the body fails to
decode (`"failed to decode response: %w"`): the decode-error class. -/
def decodeMsg (e : String) : String := "failed to decode response: " ++ e

/-- Outcome of one HTTP round trip as seen by `makeRequest`: either
`httpClient.Do` returned an error, or it returned a response with a status
code and a body. -/
inductive HTTPOutcome where
  | netError (msg : String)
  | response (status : Nat) (body : String)
deriving DecidableEq

/-- `services.makeRequest`, with the network outcome and the
`json.Decoder.Decode` behaviour of the target shape passed explicitly.
(The `http.NewRequest` error branch is omitted: the service only ever
passes well-formed GET method/URL pairs, on which `NewRequest` cannot
fail.) -/
def makeRequest (outcome : HTTPOutcome) (decode : String → Except String α) :
    Except String α :=
  match outcome with
  | .netError e => .error (transportMsg e)
  | .response status body =>
    if status ≠ 200 then .error (upstreamMsg status body)
    else
      match decode body with
      | .error e => .error (decodeMsg e)
      | .ok v => .ok v

/-- Numeric value of a digit string, most significant digit first. -/
def digitsVal (cs : List Char) : Nat :=
  cs.foldl (fun a c => 10 * a + (c.toNat - 48)) 0

/-- Recovers the status code from an upstream-error message: drop the fixed
leading text, read digits up to the first colon. -/
def statusOfMsg (msg : String) : Nat :=
  digitsVal ((msg.data.drop 31).takeWhile (fun c => c != ':'))

/-- Recovers the response body from an upstream-error message: drop the
fixed leading text, the digits, and the `": "` separator. -/
def bodyOfMsg (msg : String) : String :=
  ⟨((msg.data.drop 31).dropWhile (fun c => c != ':')).drop 2⟩

/-! ## Go time conversion (`time.UnixMilli` as used by `GetMatchDetails`) -/

/-- Embeds `time.Unix(sec, nsec)`'s nanosecond normalization (Go
`time/time.go`); Go's `int64` division truncates toward zero, hence
`Int.tdiv`. -/
def goUnix (sec0 nsec0 : Int) : GoTime :=
  if nsec0 < 0 ∨ 1000000000 ≤ nsec0 then
    let n := nsec0.tdiv 1000000000
    let sec1 := sec0 + n
    let nsec1 := nsec0 - n * 1000000000
    if nsec1 < 0 then ⟨sec1 - 1, nsec1 + 1000000000⟩ else ⟨sec1, nsec1⟩
  else ⟨sec0, nsec0⟩

/-- Embeds `time.UnixMilli(msec)`:
`Unix(msec/1e3, (msec%1e3)*1e6)` with Go's truncating `/` and `%`. -/
def goUnixMilli (msec : Int) : GoTime :=
  goUnix (msec.tdiv 1000) ((msec.tmod 1000) * 1000000)

/-- The canonical absolute instant `ms` milliseconds after the Unix epoch:
seconds = ⌊ms / 1000⌋ and nanoseconds = (ms mod 1000)·10⁶ with the
nanosecond field in `[0, 10⁹)` (Euclidean division). -/
def msInstant (ms : Int) : GoTime := ⟨ms / 1000, (ms % 1000) * 1000000⟩

/-! ## Raw provider payloads and JSON decoding (`GetMatchDetails`'s
anonymous `rawMatch` struct) -/

/-- The `metadata` sub-object of the raw match payload, after decoding. -/
structure RawMetadata where
  matchId : String
deriving DecidableEq

/-- One entry of the raw `info.participants` sequence, after decoding. -/
structure RawParticipant where
  puuid : String
  summonerName : String
  championId : Int
  championName : String
  kills : Int
  deaths : Int
  assists : Int
  goldEarned : Int
  totalDamageDealtToChampions : Int
  totalDamageTaken : Int
  visionScore : Int
  totalMinionsKilled : Int
  win : Bool
  teamPosition : String
deriving DecidableEq

/-- The `info` sub-object of the raw match payload, after decoding. -/
structure RawInfo where
  gameCreation : Int
  gameDuration : Int
  gameMode : String
  gameType : String
  participants : List RawParticipant
deriving DecidableEq

/-- The raw provider match payload as `GetMatchDetails` sees it after
`json` decoding: the anonymous `rawMatch` struct. -/
structure RawMatch where
  metadata : RawMetadata
  info : RawInfo
deriving DecidableEq

/-- A raw participant object as present in the provider's JSON document:
every field may be absent. -/
structure JsonParticipant where
  puuid : Option String
  summonerName : Option String
  championId : Option Int
  championName : Option String
  kills : Option Int
  deaths : Option Int
  assists : Option Int
  goldEarned : Option Int
  totalDamageDealtToChampions : Option Int
  totalDamageTaken : Option Int
  visionScore : Option Int
  totalMinionsKilled : Option Int
  win : Option Bool
  teamPosition : Option String
deriving DecidableEq

/-- The `metadata` JSON sub-object, fields possibly absent. -/
structure JsonMetadata where
  matchId : Option String
deriving DecidableEq

/-- The `info` JSON sub-object, fields possibly absent. -/
structure JsonInfo where
  gameCreation : Option Int
  gameDuration : Option Int
  gameMode : Option String
  gameType : Option String
  participants : Option (List JsonParticipant)
deriving DecidableEq

/-- A raw provider match JSON document: both sub-objects may be absent. -/
structure JsonMatch where
  metadata : Option JsonMetadata
  info : Option JsonInfo
deriving DecidableEq

/-- Embeds `encoding/json` decoding of one participant into the anonymous
participant struct: an absent field leaves the struct field at its zero
value (`""` / `0` / `false`); no validation is performed. -/
def decodeJsonParticipant (j : JsonParticipant) : RawParticipant :=
  { puuid := j.puuid.getD ""
    summonerName := j.summonerName.getD ""
    championId := j.championId.getD 0
    championName := j.championName.getD ""
    kills := j.kills.getD 0
    deaths := j.deaths.getD 0
    assists := j.assists.getD 0
    goldEarned := j.goldEarned.getD 0
    totalDamageDealtToChampions := j.totalDamageDealtToChampions.getD 0
    totalDamageTaken := j.totalDamageTaken.getD 0
    visionScore := j.visionScore.getD 0
    totalMinionsKilled := j.totalMinionsKilled.getD 0
    win := j.win.getD false
    teamPosition := j.teamPosition.getD "" }

/-- Embeds `encoding/json` decoding of the `metadata` sub-object: an absent
object or field leaves zero values. -/
def decodeJsonMetadata : Option JsonMetadata → RawMetadata
  | none => { matchId := "" }
  | some md => { matchId := md.matchId.getD "" }

/-- Embeds `encoding/json` decoding of the `info` sub-object: an absent
object or field leaves zero values; an absent `participants` array leaves
the nil slice, of length 0. -/
def decodeJsonInfo : Option JsonInfo → RawInfo
  | none =>
    { gameCreation := 0, gameDuration := 0, gameMode := "", gameType := "",
      participants := [] }
  | some info =>
    { gameCreation := info.gameCreation.getD 0
      gameDuration := info.gameDuration.getD 0
      gameMode := info.gameMode.getD ""
      gameType := info.gameType.getD ""
      participants := (info.participants.getD []).map decodeJsonParticipant }

/-- Embeds `encoding/json` decoding of the whole raw match document into
`GetMatchDetails`'s anonymous struct. -/
def decodeJsonMatch (j : JsonMatch) : RawMatch :=
  { metadata := decodeJsonMetadata j.metadata
    info := decodeJsonInfo j.info }

/-! ## Data aggregation (`services.RiotService` methods)

Each method takes the result(s) of its `makeRequest` call(s) as explicit
parameters; the pair it returns models the Go `(value, error)` pair. -/

/-- The participant conversion loop of `GetMatchDetails`: an index-for loop
filling `make([]models.Participant, len(...))`, i.e. a map. -/
def normalizeParticipant (p : RawParticipant) : Participant :=
  { puuid := p.puuid
    summonerName := p.summonerName
    championId := p.championId
    championName := p.championName
    kills := p.kills
    deaths := p.deaths
    assists := p.assists
    goldEarned := p.goldEarned
    totalDamageDealtToChampions := p.totalDamageDealtToChampions
    totalDamageTaken := p.totalDamageTaken
    visionScore := p.visionScore
    totalMinionsKilled := p.totalMinionsKilled
    win := p.win
    teamPosition := p.teamPosition }

/-- The conversion in `GetMatchDetails` from the raw payload to
`models.Match`: `time.UnixMilli` on `gameCreation`, all other fields copied
by name. -/
def normalizeMatch (raw : RawMatch) : Match :=
  { matchId := raw.metadata.matchId
    gameCreation := goUnixMilli raw.info.gameCreation
    gameDuration := raw.info.gameDuration
    gameMode := raw.info.gameMode
    gameType := raw.info.gameType
    participants := raw.info.participants.map normalizeParticipant }

/-- `RiotService.GetMatchDetails`, given the result of its `makeRequest`
call (decoded raw payload or error message). -/
def GetMatchDetails (fetch : Except String RawMatch) :
    Option Match × Option String :=
  match fetch with
  | .error e => (none, some ("failed to get match details: " ++ e))
  | .ok raw => (some (normalizeMatch raw), none)

/-- The fan-out loop of `GetMatchHistory`: for each match id in order, call
`GetMatchDetails`; on error `continue`, otherwise append the match. -/
def historyLoop (env : String → Except String RawMatch) :
    List String → List Match
  | [] => []
  | matchID :: rest =>
    match GetMatchDetails (env matchID) with
    | (some m, none) => m :: historyLoop env rest
    | _ => historyLoop env rest

/-- `RiotService.GetMatchHistory`, given the result of the match-id listing
call and, for each match id, the result of the detail `makeRequest`. -/
def GetMatchHistory (listFetch : Except String (List String))
    (env : String → Except String RawMatch) : List Match × Option String :=
  match listFetch with
  | .error e => ([], some ("failed to get match list: " ++ e))
  | .ok matchIDs => (historyLoop env matchIDs, none)

/-- The account payload decoded in step 1 of `GetSummonerByRiotID`. -/
structure Account where
  puuid : String
  gameName : String
  tagLine : String
deriving DecidableEq

/-- `RiotService.GetSummonerByPUUID`, given the result of its
`makeRequest` call. -/
def GetSummonerByPUUID (fetch : Except String Summoner) :
    Option Summoner × Option String :=
  match fetch with
  | .error e => (none, some ("failed to get summoner: " ++ e))
  | .ok s => (some s, none)

/-- `RiotService.GetSummonerByRiotID`: step 1 fetches the account (result
passed as `acctFetch`); on success, step 2 is `GetSummonerByPUUID` on the
account's puuid, whose `makeRequest` result is `summEnv` applied to that
puuid. -/
def GetSummonerByRiotID (acctFetch : Except String Account)
    (summEnv : String → Except String Summoner) :
    Option Summoner × Option String :=
  match acctFetch with
  | .error e => (none, some ("failed to get account info: " ++ e))
  | .ok account => GetSummonerByPUUID (summEnv account.puuid)

/-! ## Handler count logic (`api.GetMatchesByRiotID`, `api.GetMatches`) -/

/-- The count selection of the JSON-body handler `GetMatchesByRiotID`: the
decoded `count` field (absent decodes to `0`, modelled by `Option`), then
`if count <= 0 { count = 20 }`. -/
def matchesRequestCount (countField : Option Int) : Int :=
  let count := countField.getD 0
  if count ≤ 0 then 20 else count

/-- A minimal concrete raw payload carrying a given match id, used as test
data by the concrete instantiations below. -/
def sampleRaw (id : String) : RawMatch :=
  { metadata := { matchId := id }
    info := { gameCreation := 0, gameDuration := 0, gameMode := "",
              gameType := "", participants := [] } }

/-- A detail-fetch environment whose every fetch succeeds with
`sampleRaw`. -/
def sampleEnv (id : String) : Except String RawMatch := .ok (sampleRaw id)

/-- A detail-fetch environment failing exactly on `"M2"`. -/
def sampleEnvFailM2 (id : String) : Except String RawMatch :=
  if id = "M2" then .error "boom" else .ok (sampleRaw id)

/-- A raw payload whose `gameCreation` is the millisecond epoch value
1700000000000, used to instantiate the normalization claim. -/
def raw1700 : RawMatch :=
  { metadata := { matchId := "NA1_1" }
    info := { gameCreation := 1700000000000, gameDuration := 1800,
              gameMode := "CLASSIC", gameType := "MATCHED_GAME",
              participants := [] } }

/-- A raw participant JSON object with every field absent. -/
def jsonEmptyParticipant : JsonParticipant :=
  { puuid := none, summonerName := none, championId := none,
    championName := none, kills := none, deaths := none, assists := none,
    goldEarned := none, totalDamageDealtToChampions := none,
    totalDamageTaken := none, visionScore := none,
    totalMinionsKilled := none, win := none, teamPosition := none }

/-- A provider JSON match document whose `metadata` object is absent; its
other fields are present and well-formed. -/
def jsonNoMetadata : JsonMatch :=
  { metadata := none
    info := some { gameCreation := some 1, gameDuration := some 2,
                   gameMode := some "CLASSIC",
                   gameType := some "MATCHED_GAME",
                   participants := some [] } }

/-- The count selection of the query-parameter handler `GetMatches`:
`count := 20; if countStr != "" { if c, err := Atoi(countStr); err == nil
&& c > 0 { count = c } }`, with `strconv.Atoi` passed as an oracle. -/
def getMatchesCount (countStr : String) (atoi : String → Except String Int) :
    Int :=
  if countStr ≠ "" then
    match atoi countStr with
    | .ok parsedCount => if 0 < parsedCount then parsedCount else 20
    | .error _ => 20
  else 20

end OPGL

namespace OPGL

/-! ## Theorems -/

theorem getRegionalURL_of_unknown (region : String)
    (h : region ∉ knownRegions) : getRegionalURL region = "na1.api.riotgames.com" := by
  simp only [knownRegions, List.mem_cons, List.not_mem_nil, or_false, not_or] at h
  obtain ⟨h1, h2, h3, h4, h5, h6, h7, h8, h9, h10, h11⟩ := h
  simp [getRegionalURL, regionalRouting, List.lookup,
    beq_eq_false_iff_ne.mpr h1, beq_eq_false_iff_ne.mpr h2, beq_eq_false_iff_ne.mpr h3,
    beq_eq_false_iff_ne.mpr h4, beq_eq_false_iff_ne.mpr h5, beq_eq_false_iff_ne.mpr h6,
    beq_eq_false_iff_ne.mpr h7, beq_eq_false_iff_ne.mpr h8, beq_eq_false_iff_ne.mpr h9,
    beq_eq_false_iff_ne.mpr h10, beq_eq_false_iff_ne.mpr h11]

theorem getMatchRegionalURL_of_unknown (region : String)
    (h : region ∉ knownRegions) : getMatchRegionalURL region = "americas.api.riotgames.com" := by
  simp only [knownRegions, List.mem_cons, List.not_mem_nil, or_false, not_or] at h
  obtain ⟨h1, h2, h3, h4, h5, h6, h7, h8, h9, h10, h11⟩ := h
  simp [getMatchRegionalURL, continentalRouting, List.lookup,
    beq_eq_false_iff_ne.mpr h1, beq_eq_false_iff_ne.mpr h2, beq_eq_false_iff_ne.mpr h3,
    beq_eq_false_iff_ne.mpr h4, beq_eq_false_iff_ne.mpr h5, beq_eq_false_iff_ne.mpr h6,
    beq_eq_false_iff_ne.mpr h7, beq_eq_false_iff_ne.mpr h8, beq_eq_false_iff_ne.mpr h9,
    beq_eq_false_iff_ne.mpr h10, beq_eq_false_iff_ne.mpr h11]

/-- C2: for each of the 11 table keys, `getRegionalURL` returns the region's
fixed platform host and `getMatchRegionalURL` its continental host
(`na,br,lan,las → americas`; `euw,eune,tr,ru → europe`; `kr,jp → asia`;
`oce → sea`); for any other string, including the empty string, they return
`"na1.api.riotgames.com"` / `"americas.api.riotgames.com"`.  Both are total
pure Lean functions, so neither fails nor has a side effect. -/
theorem c2_regional_routing :
    (getRegionalURL "na" = "na1.api.riotgames.com" ∧
     getRegionalURL "euw" = "euw1.api.riotgames.com" ∧
     getRegionalURL "eune" = "eun1.api.riotgames.com" ∧
     getRegionalURL "kr" = "kr.api.riotgames.com" ∧
     getRegionalURL "br" = "br1.api.riotgames.com" ∧
     getRegionalURL "jp" = "jp1.api.riotgames.com" ∧
     getRegionalURL "ru" = "ru.api.riotgames.com" ∧
     getRegionalURL "oce" = "oc1.api.riotgames.com" ∧
     getRegionalURL "tr" = "tr1.api.riotgames.com" ∧
     getRegionalURL "lan" = "la1.api.riotgames.com" ∧
     getRegionalURL "las" = "la2.api.riotgames.com") ∧
    (getMatchRegionalURL "na" = "americas.api.riotgames.com" ∧
     getMatchRegionalURL "br" = "americas.api.riotgames.com" ∧
     getMatchRegionalURL "lan" = "americas.api.riotgames.com" ∧
     getMatchRegionalURL "las" = "americas.api.riotgames.com" ∧
     getMatchRegionalURL "euw" = "europe.api.riotgames.com" ∧
     getMatchRegionalURL "eune" = "europe.api.riotgames.com" ∧
     getMatchRegionalURL "tr" = "europe.api.riotgames.com" ∧
     getMatchRegionalURL "ru" = "europe.api.riotgames.com" ∧
     getMatchRegionalURL "kr" = "asia.api.riotgames.com" ∧
     getMatchRegionalURL "jp" = "asia.api.riotgames.com" ∧
     getMatchRegionalURL "oce" = "sea.api.riotgames.com") ∧
    (∀ region : String, region ∉ knownRegions →
      getRegionalURL region = "na1.api.riotgames.com" ∧
      getMatchRegionalURL region = "americas.api.riotgames.com") := by
  refine ⟨by decide, by decide, fun region h => ⟨?_, ?_⟩⟩
  · exact getRegionalURL_of_unknown region h
  · exact getMatchRegionalURL_of_unknown region h

/-! ### Match history fan-out -/

theorem historyLoop_cons_ok (env : String → Except String RawMatch)
    (matchID : String) (rest : List String) (raw : RawMatch)
    (h : env matchID = .ok raw) :
    historyLoop env (matchID :: rest) =
      normalizeMatch raw :: historyLoop env rest := by
  simp [historyLoop, GetMatchDetails, h]

theorem historyLoop_cons_error (env : String → Except String RawMatch)
    (matchID : String) (rest : List String) (e : String)
    (h : env matchID = .error e) :
    historyLoop env (matchID :: rest) = historyLoop env rest := by
  simp [historyLoop, GetMatchDetails, h]

/-- On a list whose every detail fetch succeeds, the fan-out loop returns
one match per id, in listing order. -/
theorem historyLoop_all_ok (env : String → Except String RawMatch)
    (l : List String) (h : ∀ id ∈ l, ∃ raw, env id = .ok raw) :
    (historyLoop env l).length = l.length ∧
    ∀ i (hi : i < l.length),
      (historyLoop env l)[i]? = (GetMatchDetails (env (l.get ⟨i, hi⟩))).1 := by
  induction l with
  | nil => exact ⟨rfl, fun i hi => absurd hi (by simp)⟩
  | cons matchID rest ih =>
    obtain ⟨raw, hraw⟩ := h matchID (List.mem_cons_self _ _)
    obtain ⟨ihlen, ihget⟩ := ih (fun id hid => h id (List.mem_cons_of_mem _ hid))
    rw [historyLoop_cons_ok env matchID rest raw hraw]
    refine ⟨by simp [ihlen], fun i hi => ?_⟩
    match i with
    | 0 => simp [GetMatchDetails, hraw]
    | i + 1 =>
      have hi' : i < rest.length := by simpa using hi
      simpa using ihget i hi'

/-- A failing detail fetch drops exactly its own entry: the loop behaves as
if the failing index were erased from the listing. -/
theorem historyLoop_eraseIdx (env : String → Except String RawMatch)
    (l : List String) (i : Nat) (hi : i < l.length)
    (hfail : ∃ e, env (l.get ⟨i, hi⟩) = .error e) :
    historyLoop env l = historyLoop env (l.eraseIdx i) := by
  induction l generalizing i with
  | nil => simp at hi
  | cons matchID rest ih =>
    match i with
    | 0 =>
      obtain ⟨e, he⟩ := hfail
      simpa [List.eraseIdx] using historyLoop_cons_error env matchID rest e he
    | i + 1 =>
      have hi' : i < rest.length := by simpa using hi
      have step : historyLoop env rest = historyLoop env (rest.eraseIdx i) :=
        ih i hi' (by simpa using hfail)
      simp only [List.eraseIdx]
      cases hcase : env matchID with
      | error e =>
        rw [historyLoop_cons_error env matchID rest e hcase,
          historyLoop_cons_error env matchID (rest.eraseIdx i) e hcase, step]
      | ok raw =>
        rw [historyLoop_cons_ok env matchID rest raw hcase,
          historyLoop_cons_ok env matchID (rest.eraseIdx i) raw hcase, step]

/-- C3: when the listing call succeeds with K ids and every detail fetch
succeeds, `GetMatchHistory` returns no error and exactly K matches, the
i-th being the detail-fetch result of the i-th listed id. -/
theorem c3_history_all_ok (ids : List String)
    (env : String → Except String RawMatch)
    (h : ∀ id ∈ ids, ∃ raw, env id = .ok raw) :
    (GetMatchHistory (.ok ids) env).2 = none ∧
    (GetMatchHistory (.ok ids) env).1.length = ids.length ∧
    ∀ i (hi : i < ids.length),
      (GetMatchHistory (.ok ids) env).1[i]? =
        (GetMatchDetails (env (ids.get ⟨i, hi⟩))).1 :=
  ⟨rfl, (historyLoop_all_ok env ids h).1, (historyLoop_all_ok env ids h).2⟩

/-- C3 witness: a two-id listing with both fetches succeeding yields both
matches in order. -/
theorem c3_history_all_ok_witness :
    (∀ id ∈ ["M1", "M2"], ∃ raw, sampleEnv id = .ok raw) ∧
    (GetMatchHistory (.ok ["M1", "M2"]) sampleEnv).1.length = 2 := by
  have hok : ∀ id ∈ ["M1", "M2"], ∃ raw, sampleEnv id = .ok raw :=
    fun id _ => ⟨sampleRaw id, rfl⟩
  exact ⟨hok, (c3_history_all_ok _ _ hok).2.1⟩

/-- C1: when the listing call succeeds with K ids and exactly one detail
fetch (the one at index i) fails, `GetMatchHistory` returns no error and
exactly K−1 matches — the detail-fetch results of the surviving ids in
their listing order, with no placeholder for the failed entry. -/
theorem c1_history_one_failure (ids : List String)
    (env : String → Except String RawMatch) (i : Nat) (hi : i < ids.length)
    (hfail : ∃ e, env (ids.get ⟨i, hi⟩) = .error e)
    (hok : ∀ j (hj : j < ids.length), j ≠ i →
      ∃ raw, env (ids.get ⟨j, hj⟩) = .ok raw) :
    (GetMatchHistory (.ok ids) env).2 = none ∧
    (GetMatchHistory (.ok ids) env).1.length = ids.length - 1 ∧
    ∀ j (hj : j < (ids.eraseIdx i).length),
      (GetMatchHistory (.ok ids) env).1[j]? =
        (GetMatchDetails (env ((ids.eraseIdx i).get ⟨j, hj⟩))).1 := by
  have hsurvive : ∀ id ∈ ids.eraseIdx i, ∃ raw, env id = .ok raw := by
    intro id hid
    obtain ⟨j, hj, hget⟩ := List.mem_iff_getElem.mp hid
    rw [List.getElem_eraseIdx] at hget
    split at hget
    · have hjlen : j < ids.length := by
        rw [List.length_eraseIdx, if_pos hi] at hj; omega
      obtain ⟨raw, hraw⟩ := hok j hjlen (by omega)
      exact ⟨raw, by rwa [List.get_eq_getElem, hget] at hraw⟩
    · have hjlen : j + 1 < ids.length := by
        rw [List.length_eraseIdx, if_pos hi] at hj; omega
      obtain ⟨raw, hraw⟩ := hok (j + 1) hjlen (by omega)
      exact ⟨raw, by rwa [List.get_eq_getElem, hget] at hraw⟩
  have herase : historyLoop env ids = historyLoop env (ids.eraseIdx i) :=
    historyLoop_eraseIdx env ids i hi hfail
  obtain ⟨hlen, hget⟩ := historyLoop_all_ok env (ids.eraseIdx i) hsurvive
  refine ⟨rfl, ?_, ?_⟩
  · show (historyLoop env ids).length = ids.length - 1
    rw [herase, hlen, List.length_eraseIdx, if_pos hi]
  · intro j hj
    show (historyLoop env ids)[j]? = _
    rw [herase]
    exact hget j hj

/-- C1 witness: three listed ids with exactly the middle fetch failing
yield the two surviving matches and no error. -/
theorem c1_history_one_failure_witness :
    (1 < (["M1", "M2", "M3"] : List String).length) ∧
    (GetMatchHistory (.ok ["M1", "M2", "M3"]) sampleEnvFailM2).2 = none ∧
    (GetMatchHistory (.ok ["M1", "M2", "M3"]) sampleEnvFailM2).1.length = 2 := by
  have h := c1_history_one_failure ["M1", "M2", "M3"] sampleEnvFailM2
    1 (by decide) ⟨"boom", rfl⟩
    (by
      intro j hj hne
      match j with
      | 0 => exact ⟨sampleRaw "M1", rfl⟩
      | 1 => exact absurd rfl hne
      | 2 => exact ⟨sampleRaw "M3", rfl⟩)
  exact ⟨by decide, h.1, h.2.1⟩

/-- C4: when the listing call itself fails, `GetMatchHistory` returns zero
matches together with a non-`nil` error, and the per-match detail oracle is
never consulted (the result is the same for any two detail oracles). -/
theorem c4_history_listing_failure (e : String)
    (env env' : String → Except String RawMatch) :
    GetMatchHistory (.error e) env =
      ([], some ("failed to get match list: " ++ e)) ∧
    (GetMatchHistory (.error e) env).1 = [] ∧
    (GetMatchHistory (.error e) env).2 ≠ none ∧
    GetMatchHistory (.error e) env = GetMatchHistory (.error e) env' :=
  ⟨rfl, rfl, by simp [GetMatchHistory], rfl⟩

/-! ### Summoner resolution -/

/-- C5 counterexample: with the account lookup failing with message
`"boom"`, `GetSummonerByRiotID` returns no Summoner but an error whose
message is `"failed to get account info: boom"`, which is not the account
step's error `"boom"` unchanged. -/
theorem c5_error_not_unchanged_counterexample :
    GetSummonerByRiotID (.error "boom")
      (fun _ => .error "never reached") =
      (none, some "failed to get account info: boom") ∧
    some "failed to get account info: boom" ≠ some "boom" :=
  ⟨rfl, by decide⟩

/-- C5 (amended): a failing step aborts the operation with no Summoner and
surfaces that step's error wrapped under a fixed context message — the
account step's error behind `"failed to get account info: "`, the summoner
step's behind `"failed to get summoner: "` — and when the account lookup
fails the summoner-by-puuid call is never attempted (the result does not
depend on the summoner oracle). -/
theorem c5_failure_propagation :
    (∀ (e : String) (summEnv summEnv' : String → Except String Summoner),
      GetSummonerByRiotID (.error e) summEnv =
        (none, some ("failed to get account info: " ++ e)) ∧
      GetSummonerByRiotID (.error e) summEnv =
        GetSummonerByRiotID (.error e) summEnv') ∧
    (∀ (account : Account) (summEnv : String → Except String Summoner)
      (e : String), summEnv account.puuid = .error e →
      GetSummonerByRiotID (.ok account) summEnv =
        (none, some ("failed to get summoner: " ++ e))) := by
  refine ⟨fun e summEnv summEnv' => ⟨rfl, rfl⟩, ?_⟩
  intro account summEnv e h
  simp [GetSummonerByRiotID, GetSummonerByPUUID, h]

/-- C5 witness: the summoner-step clause at a concrete failing oracle. -/
theorem c5_failure_propagation_witness :
    ((fun _ => (Except.error "down" : Except String Summoner))
      (Account.mk "P1" "g" "t").puuid = .error "down") ∧
    GetSummonerByRiotID (.ok (Account.mk "P1" "g" "t"))
      (fun _ => (Except.error "down" : Except String Summoner)) =
      (none, some ("failed to get summoner: " ++ "down")) :=
  ⟨rfl, c5_failure_propagation.2 (Account.mk "P1" "g" "t")
    (fun _ => (Except.error "down" : Except String Summoner)) "down" rfl⟩

/-! ### Returned-match provenance (C8) -/

/-- C8 counterexample: a provider payload whose `metadata` object is absent
decodes to an empty `matchId`, and `GetMatchHistory` hands the resulting
Match — with `matchId = ""` — to the caller with no error, refuting the
claim that every returned Match has a non-empty `matchId`. -/
theorem c8_empty_matchId_counterexample :
    (GetMatchHistory (.ok ["M1"])
      (fun _ => .ok (decodeJsonMatch jsonNoMetadata))).2 = none ∧
    ((GetMatchHistory (.ok ["M1"])
      (fun _ => .ok (decodeJsonMatch jsonNoMetadata))).1.map Match.matchId) =
      [""] :=
  ⟨rfl, rfl⟩

/-- C8 (amended): every Match that `GetMatchHistory` or `GetMatchDetails`
returns to a caller stems from a successful detail fetch — a match whose
fetch failed never appears — and its `matchId` is copied verbatim from that
payload's `metadata.matchId`, which is empty exactly when the provider
sent it empty or absent (no non-emptiness is enforced). -/
theorem c8_returned_match_provenance :
    (∀ (ids : List String) (env : String → Except String RawMatch)
      (m : Match), m ∈ (GetMatchHistory (.ok ids) env).1 →
      ∃ id raw, id ∈ ids ∧ env id = .ok raw ∧
        m = normalizeMatch raw ∧ m.matchId = raw.metadata.matchId) ∧
    (∀ (fetch : Except String RawMatch) (m : Match),
      (GetMatchDetails fetch).1 = some m →
      ∃ raw, fetch = .ok raw ∧ m = normalizeMatch raw ∧
        m.matchId = raw.metadata.matchId) := by
  constructor
  · intro ids env m hm
    simp only [GetMatchHistory] at hm
    induction ids with
    | nil => simp [historyLoop] at hm
    | cons matchID rest ih =>
      cases hcase : env matchID with
      | error e =>
        rw [historyLoop_cons_error env matchID rest e hcase] at hm
        obtain ⟨id, raw, hid, hraw, hrest⟩ := ih hm
        exact ⟨id, raw, List.mem_cons_of_mem _ hid, hraw, hrest⟩
      | ok raw =>
        rw [historyLoop_cons_ok env matchID rest raw hcase] at hm
        rcases List.mem_cons.mp hm with heq | hmem
        · exact ⟨matchID, raw, List.mem_cons_self _ _, hcase, heq, by rw [heq]; rfl⟩
        · obtain ⟨id, raw', hid, hraw', hrest⟩ := ih hmem
          exact ⟨id, raw', List.mem_cons_of_mem _ hid, hraw', hrest⟩
  · intro fetch m hm
    cases fetch with
    | error e => simp [GetMatchDetails] at hm
    | ok raw =>
      simp only [GetMatchDetails, Option.some.injEq] at hm
      exact ⟨raw, rfl, hm.symm, by rw [← hm]; rfl⟩

/-- C8 amended-claim witness: a concrete returned match traced back to its
successful fetch. -/
theorem c8_returned_match_provenance_witness :
    (normalizeMatch (sampleRaw "M1") ∈
      (GetMatchHistory (.ok ["M1"]) sampleEnv).1) ∧
    ∃ id raw, id ∈ (["M1"] : List String) ∧ sampleEnv id = .ok raw ∧
      normalizeMatch (sampleRaw "M1") = normalizeMatch raw ∧
      (normalizeMatch (sampleRaw "M1")).matchId = raw.metadata.matchId := by
  have hmem : normalizeMatch (sampleRaw "M1") ∈
      (GetMatchHistory (.ok ["M1"]) sampleEnv).1 := by
    simp [GetMatchHistory, historyLoop, GetMatchDetails, sampleEnv]
  exact ⟨hmem, c8_returned_match_provenance.1 _ _ _ hmem⟩

/-! ### Handler count defaulting (C9) -/

/-- C9: the count handed to `GetMatchHistory` is the caller-supplied count
when positive and 20 when the count field is absent or non-positive — in
the JSON-body handler (`matchesRequestCount`, where an absent field decodes
to 0) and in the query-parameter handler (`getMatchesCount`). -/
theorem c9_count_default :
    (∀ c : Int, 0 < c → matchesRequestCount (some c) = c) ∧
    matchesRequestCount none = 20 ∧
    (∀ c : Int, c ≤ 0 → matchesRequestCount (some c) = 20) ∧
    (∀ atoi : String → Except String Int, getMatchesCount "" atoi = 20) ∧
    (∀ (s : String) (atoi : String → Except String Int) (c : Int),
      s ≠ "" → atoi s = .ok c → 0 < c → getMatchesCount s atoi = c) ∧
    (∀ (s : String) (atoi : String → Except String Int) (c : Int),
      s ≠ "" → atoi s = .ok c → c ≤ 0 → getMatchesCount s atoi = 20) := by
  refine ⟨fun c hc => ?_, rfl, fun c hc => ?_, fun atoi => rfl, ?_, ?_⟩
  · simp only [matchesRequestCount, Option.getD_some]
    rw [if_neg (by omega)]
  · simp only [matchesRequestCount, Option.getD_some]
    rw [if_pos hc]
  · intro s atoi c hs hc hpos
    simp [getMatchesCount, hs, hc, hpos]
  · intro s atoi c hs hc hnp
    simp only [getMatchesCount, ne_eq, hs, not_false_iff, if_true, hc]
    rw [if_neg (by omega)]

/-- C9 witness: concrete counts — positive 5 is passed through, absent and
non-positive fall back to 20, in both handlers. -/
theorem c9_count_default_witness :
    ((0 : Int) < 5 ∧ matchesRequestCount (some 5) = 5) ∧
    matchesRequestCount none = 20 ∧
    ((-3 : Int) ≤ 0 ∧ matchesRequestCount (some (-3)) = 20) ∧
    getMatchesCount "" (fun _ => .ok 5) = 20 ∧
    (("5" : String) ≠ "" ∧
      getMatchesCount "5" (fun _ => .ok 5) = 5) ∧
    (("-3" : String) ≠ "" ∧
      getMatchesCount "-3" (fun _ => .ok (-3)) = 20) :=
  ⟨⟨by decide, c9_count_default.1 5 (by decide)⟩,
   c9_count_default.2.1,
   ⟨by decide, c9_count_default.2.2.1 (-3) (by decide)⟩,
   c9_count_default.2.2.2.1 (fun _ => .ok 5),
   ⟨by decide, c9_count_default.2.2.2.2.1 "5" (fun _ => .ok 5) 5 (by decide)
      rfl (by decide)⟩,
   ⟨by decide, c9_count_default.2.2.2.2.2 "-3" (fun _ => .ok (-3)) (-3)
      (by decide) rfl (by decide)⟩⟩

/-! ### Millisecond epoch conversion (C7) -/

theorem tmod_1000_bounds (a : Int) :
    -1000 < a.tmod 1000 ∧ a.tmod 1000 < 1000 := by
  constructor
  · have h1 : (-a).tmod 1000 < 1000 := Int.tmod_lt_of_pos (-a) (by norm_num)
    have h2 : (-a).tmod 1000 = -(a.tmod 1000) := by
      rw [Int.tmod_def, Int.tmod_def, Int.neg_tdiv]; ring
    omega
  · exact Int.tmod_lt_of_pos a (by norm_num)

/-- `time.UnixMilli`'s truncated-division arithmetic lands on the canonical
absolute instant: Euclidean seconds and a nanosecond field in `[0, 10⁹)`. -/
theorem goUnixMilli_eq_msInstant (ms : Int) : goUnixMilli ms = msInstant ms := by
  obtain ⟨hr0, hr1⟩ := tmod_1000_bounds ms
  have hqr : 1000 * ms.tdiv 1000 + ms.tmod 1000 = ms := Int.tdiv_add_tmod ms 1000
  have hER : 1000 * (ms / 1000) + ms % 1000 = ms := Int.ediv_add_emod ms 1000
  have hR0 : 0 ≤ ms % 1000 := Int.emod_nonneg ms (by norm_num)
  have hR1 : ms % 1000 < 1000 := Int.emod_lt_of_pos ms (by norm_num)
  have hn : ((ms.tmod 1000) * 1000000).tdiv 1000000000 = 0 := by
    have hsmall : (ms.tmod 1000).natAbs < 1000 := by omega
    have habs : ((ms.tmod 1000) * 1000000).natAbs < 1000000000 := by
      rw [Int.natAbs_mul]
      have h6 : ((1000000 : Int)).natAbs = 1000000 := rfl
      rw [h6]
      omega
    have h0 : (((ms.tmod 1000) * 1000000).tdiv 1000000000).natAbs = 0 := by
      rw [Int.natAbs_tdiv]
      exact Nat.div_eq_of_lt (by simpa using habs)
    omega
  simp only [goUnixMilli, goUnix, msInstant, hn]
  split_ifs <;> simp only [GoTime.mk.injEq] <;> constructor <;> omega

/-- C7: `GetMatchDetails`'s normalization of a successful raw payload sets
`gameCreation` to the absolute instant of the raw millisecond epoch integer,
copies every participant field by name, produces an empty (present)
participant sequence when the raw payload has zero participants, and JSON
decoding fills every absent field with its type's zero value with no
validation. -/
theorem c7_normalization :
    (∀ j : JsonMatch,
      GetMatchDetails (.ok (decodeJsonMatch j)) =
        (some (normalizeMatch (decodeJsonMatch j)), none)) ∧
    (∀ raw : RawMatch,
      (normalizeMatch raw).gameCreation = msInstant raw.info.gameCreation) ∧
    (∀ raw : RawMatch,
      (normalizeMatch raw).participants =
        raw.info.participants.map normalizeParticipant ∧
      (raw.info.participants = [] → (normalizeMatch raw).participants = [])) ∧
    (∀ p : RawParticipant,
      (normalizeParticipant p).puuid = p.puuid ∧
      (normalizeParticipant p).summonerName = p.summonerName ∧
      (normalizeParticipant p).championId = p.championId ∧
      (normalizeParticipant p).championName = p.championName ∧
      (normalizeParticipant p).kills = p.kills ∧
      (normalizeParticipant p).deaths = p.deaths ∧
      (normalizeParticipant p).assists = p.assists ∧
      (normalizeParticipant p).goldEarned = p.goldEarned ∧
      (normalizeParticipant p).totalDamageDealtToChampions =
        p.totalDamageDealtToChampions ∧
      (normalizeParticipant p).totalDamageTaken = p.totalDamageTaken ∧
      (normalizeParticipant p).visionScore = p.visionScore ∧
      (normalizeParticipant p).totalMinionsKilled = p.totalMinionsKilled ∧
      (normalizeParticipant p).win = p.win ∧
      (normalizeParticipant p).teamPosition = p.teamPosition) ∧
    (decodeJsonMatch { metadata := none, info := none } =
      { metadata := { matchId := "" }
        info := { gameCreation := 0, gameDuration := 0, gameMode := "",
                  gameType := "", participants := [] } }) ∧
    (decodeJsonParticipant jsonEmptyParticipant =
      { puuid := "", summonerName := "", championId := 0, championName := "",
        kills := 0, deaths := 0, assists := 0, goldEarned := 0,
        totalDamageDealtToChampions := 0, totalDamageTaken := 0,
        visionScore := 0, totalMinionsKilled := 0, win := false,
        teamPosition := "" }) := by
  refine ⟨fun j => rfl, fun raw => goUnixMilli_eq_msInstant _,
    fun raw => ⟨rfl, fun h => ?_⟩, fun p => ?_, rfl, rfl⟩
  · simp [normalizeMatch, h]
  · exact ⟨rfl, rfl, rfl, rfl, rfl, rfl, rfl, rfl, rfl, rfl, rfl, rfl, rfl, rfl⟩

/-- C7 witness: the payload with `gameCreation = 1700000000000` maps to the
instant 1700000000 s after the epoch, and its empty raw participant list
yields the empty participant sequence. -/
theorem c7_normalization_witness :
    (normalizeMatch raw1700).gameCreation = msInstant 1700000000000 ∧
    msInstant 1700000000000 = ⟨1700000000, 0⟩ ∧
    (raw1700.info.participants = [] ∧
      (normalizeMatch raw1700).participants = []) :=
  ⟨c7_normalization.2.1 raw1700, by decide,
   rfl, (c7_normalization.2.2.1 raw1700).2 rfl⟩

/-! ### Error taxonomy of `makeRequest` (C6, C10) -/

theorem digitChar_toNat {d : Nat} (hd : d < 10) : (digitChar d).toNat = 48 + d := by
  interval_cases d <;> decide

theorem digitChar_ne_colon {d : Nat} (hd : d < 10) :
    (digitChar d != ':') = true := by
  interval_cases d <;> decide

theorem natToDigits_digits (n : Nat) :
    ∀ c ∈ natToDigits n, ∃ d, d < 10 ∧ c = digitChar d := by
  induction n using Nat.strong_induction_on with
  | _ n ih =>
    intro c hc
    rw [natToDigits] at hc
    by_cases h : n < 10
    · rw [dif_pos h] at hc
      rw [List.mem_singleton] at hc
      exact ⟨n, h, hc⟩
    · rw [dif_neg h] at hc
      rcases List.mem_append.mp hc with h1 | h1
      · exact ih (n / 10) (Nat.div_lt_self (by omega) (by omega)) c h1
      · rw [List.mem_singleton] at h1
        exact ⟨n % 10, Nat.mod_lt _ (by omega), h1⟩

theorem foldl_natToDigits (n : Nat) : ∀ a : Nat,
    (natToDigits n).foldl (fun acc c => 10 * acc + (c.toNat - 48)) a =
      a * 10 ^ (natToDigits n).length + n := by
  induction n using Nat.strong_induction_on with
  | _ n ih =>
    intro a
    rw [natToDigits]
    by_cases h : n < 10
    · rw [dif_pos h]
      simp only [List.foldl_cons, List.foldl_nil, List.length_singleton,
        digitChar_toNat h, pow_one]
      omega
    · rw [dif_neg h]
      rw [List.foldl_append,
        ih (n / 10) (Nat.div_lt_self (by omega) (by omega)) a]
      have hm : n % 10 < 10 := Nat.mod_lt _ (by omega)
      simp only [List.foldl_cons, List.foldl_nil, List.length_append,
        List.length_singleton, digitChar_toNat hm]
      calc 10 * (a * 10 ^ (natToDigits (n / 10)).length + n / 10) +
            (48 + n % 10 - 48)
          = a * 10 ^ ((natToDigits (n / 10)).length + 1) +
              (10 * (n / 10) + n % 10) := by ring_nf; omega
        _ = a * 10 ^ ((natToDigits (n / 10)).length + 1) + n := by
            rw [Nat.div_add_mod]

theorem digitsVal_natToDigits (n : Nat) : digitsVal (natToDigits n) = n := by
  have h := foldl_natToDigits n 0
  simpa [digitsVal] using h

theorem takeWhile_append_stop (p : Char → Bool) (y : Char) (ys : List Char)
    (hy : p y = false) : ∀ xs : List Char, (∀ c ∈ xs, p c = true) →
    (xs ++ y :: ys).takeWhile p = xs ∧ (xs ++ y :: ys).dropWhile p = y :: ys := by
  intro xs
  induction xs with
  | nil =>
    intro _
    simp [List.takeWhile_cons, List.dropWhile_cons, hy]
  | cons x xs ih =>
    intro hall
    have hx : p x = true := hall x (List.mem_cons_self _ _)
    obtain ⟨ih1, ih2⟩ := ih (fun c hc => hall c (List.mem_cons_of_mem _ hc))
    simp [List.takeWhile_cons, List.dropWhile_cons, hx, ih1, ih2]

theorem upstreamMsg_data (status : Nat) (body : String) :
    (upstreamMsg status body).data =
      "API request failed with status ".data ++
        (natToDigits status ++ (':' :: ' ' :: body.data)) := by
  simp [upstreamMsg, natRepr, String.data_append, List.append_assoc]

theorem statusOfMsg_upstream (status : Nat) (body : String) :
    statusOfMsg (upstreamMsg status body) = status := by
  rw [statusOfMsg, upstreamMsg_data]
  have hlen : ("API request failed with status ".data).length = 31 := by decide
  rw [← hlen, List.drop_left]
  have hall : ∀ c ∈ natToDigits status, (c != ':') = true := by
    intro c hc
    obtain ⟨d, hd, rfl⟩ := natToDigits_digits status c hc
    exact digitChar_ne_colon hd
  rw [(takeWhile_append_stop (fun c => c != ':') ':' (' ' :: body.data)
    (by decide) (natToDigits status) hall).1]
  exact digitsVal_natToDigits status

theorem bodyOfMsg_upstream (status : Nat) (body : String) :
    bodyOfMsg (upstreamMsg status body) = body := by
  rw [bodyOfMsg, upstreamMsg_data]
  have hlen : ("API request failed with status ".data).length = 31 := by decide
  rw [← hlen, List.drop_left]
  have hall : ∀ c ∈ natToDigits status, (c != ':') = true := by
    intro c hc
    obtain ⟨d, hd, rfl⟩ := natToDigits_digits status c hc
    exact digitChar_ne_colon hd
  rw [(takeWhile_append_stop (fun c => c != ':') ':' (' ' :: body.data)
    (by decide) (natToDigits status) hall).2]
  rfl

theorem transportMsg_get0 (e : String) :
    (transportMsg e).data[0]? = some 'f' := rfl

theorem decodeMsg_get0 (e : String) : (decodeMsg e).data[0]? = some 'f' := rfl

theorem upstreamMsg_get0 (status : Nat) (body : String) :
    (upstreamMsg status body).data[0]? = some 'A' := rfl

theorem transportMsg_get10 (e : String) :
    (transportMsg e).data[10]? = some 'e' := rfl

theorem decodeMsg_get10 (e : String) :
    (decodeMsg e).data[10]? = some 'd' := rfl

theorem transportMsg_ne_upstreamMsg (e : String) (status : Nat) (body : String) :
    transportMsg e ≠ upstreamMsg status body := by
  intro h
  have h0 := congrArg (fun t : String => t.data[0]?) h
  simp only [transportMsg_get0, upstreamMsg_get0] at h0
  exact absurd h0 (by decide)

theorem decodeMsg_ne_upstreamMsg (e : String) (status : Nat) (body : String) :
    decodeMsg e ≠ upstreamMsg status body := by
  intro h
  have h0 := congrArg (fun t : String => t.data[0]?) h
  simp only [decodeMsg_get0, upstreamMsg_get0] at h0
  exact absurd h0 (by decide)

theorem transportMsg_ne_decodeMsg (e e2 : String) :
    transportMsg e ≠ decodeMsg e2 := by
  intro h
  have h0 := congrArg (fun t : String => t.data[10]?) h
  simp only [transportMsg_get10, decodeMsg_get10] at h0
  exact absurd h0 (by decide)

/-- C6: `makeRequest` puts a network-level failure into the
transport-error class, a non-2xx (here: non-200) response into the
upstream-error class — from whose message the numeric status code and the
response body are recoverable — and a body that fails to parse into the
decode-error class; the three classes are mutually distinct. -/
theorem c6_error_taxonomy :
    (∀ (α : Type) (decode : String → Except String α) (e : String),
      makeRequest (.netError e) decode = .error (transportMsg e)) ∧
    (∀ (α : Type) (decode : String → Except String α) (status : Nat)
      (body : String), status ≠ 200 →
      makeRequest (.response status body) decode =
        .error (upstreamMsg status body)) ∧
    (∀ (status : Nat) (body : String),
      statusOfMsg (upstreamMsg status body) = status ∧
      bodyOfMsg (upstreamMsg status body) = body) ∧
    (∀ (α : Type) (decode : String → Except String α) (body e : String),
      decode body = .error e →
      makeRequest (.response 200 body) decode = .error (decodeMsg e)) ∧
    (∀ (e : String) (status : Nat) (body : String),
      transportMsg e ≠ upstreamMsg status body) ∧
    (∀ e e2 : String, transportMsg e ≠ decodeMsg e2) ∧
    (∀ (e : String) (status : Nat) (body : String),
      decodeMsg e ≠ upstreamMsg status body) := by
  refine ⟨fun α decode e => rfl, ?_, ?_, ?_,
    transportMsg_ne_upstreamMsg, transportMsg_ne_decodeMsg,
    decodeMsg_ne_upstreamMsg⟩
  · intro α decode status body h
    simp [makeRequest, h]
  · exact fun status body =>
      ⟨statusOfMsg_upstream status body, bodyOfMsg_upstream status body⟩
  · intro α decode body e h
    simp [makeRequest, h]

/-- C6 witness: a 429 response yields the upstream-error message from which
429 and the body are recovered; a decode failure on a 200 response yields
the decode-error message, distinct from the other classes. -/
theorem c6_error_taxonomy_witness :
    ((429 : Nat) ≠ 200 ∧
     makeRequest (.response 429 "rate limit exceeded")
        (fun _ => (Except.error "x" : Except String Account)) =
       .error (upstreamMsg 429 "rate limit exceeded")) ∧
    statusOfMsg (upstreamMsg 429 "rate limit exceeded") = 429 ∧
    bodyOfMsg (upstreamMsg 429 "rate limit exceeded") = "rate limit exceeded" ∧
    ((fun _ => (Except.error "bad json" : Except String Account)) "not json" =
        Except.error "bad json" ∧
     makeRequest (.response 200 "not json")
        (fun _ => (Except.error "bad json" : Except String Account)) =
       .error (decodeMsg "bad json")) ∧
    transportMsg "connection refused" ≠ upstreamMsg 429 "rate limit exceeded" :=
  ⟨⟨by decide, c6_error_taxonomy.2.1 Account
      (fun _ => (Except.error "x" : Except String Account)) 429
      "rate limit exceeded" (by decide)⟩,
   (c6_error_taxonomy.2.2.1 429 "rate limit exceeded").1,
   (c6_error_taxonomy.2.2.1 429 "rate limit exceeded").2,
   ⟨rfl, c6_error_taxonomy.2.2.2.1 Account
      (fun _ => (Except.error "bad json" : Except String Account))
      "not json" "bad json" rfl⟩,
   c6_error_taxonomy.2.2.2.2.1 "connection refused" 429 "rate limit exceeded"⟩

/-- C10: `makeRequest` fails on every response whose status is not exactly
200 — other 2xx codes such as 201 and 204 included — and a successful
result arises only from a 200 response whose body decodes. -/
theorem c10_only_200_succeeds :
    (∀ (α : Type) (decode : String → Except String α) (status : Nat)
      (body : String), status ≠ 200 →
      ∃ msg, makeRequest (.response status body) decode = .error msg) ∧
    (∀ (α : Type) (decode : String → Except String α)
      (outcome : HTTPOutcome) (v : α), makeRequest outcome decode = .ok v →
      ∃ body, outcome = .response 200 body ∧ decode body = .ok v) := by
  constructor
  · intro α decode status body h
    exact ⟨upstreamMsg status body, by simp [makeRequest, h]⟩
  · intro α decode outcome v h
    cases outcome with
    | netError e => simp [makeRequest] at h
    | response status body =>
      by_cases hs : status = 200
      · subst hs
        refine ⟨body, rfl, ?_⟩
        simp only [makeRequest, ne_eq, not_true_eq_false, if_neg,
          not_false_eq_true, reduceIte] at h
        cases hd : decode body with
        | error e => rw [hd] at h; simp at h
        | ok w => rw [hd] at h; exact h
      · simp [makeRequest, hs] at h

/-- C10 witness: 201 and 204 responses fail; a 200 response with a decoding
body succeeds. -/
theorem c10_only_200_succeeds_witness :
    ((201 : Nat) ≠ 200 ∧
     ∃ msg, makeRequest (.response 201 "created")
        (fun _ => (Except.ok 0 : Except String Int)) = .error msg) ∧
    ((204 : Nat) ≠ 200 ∧
     ∃ msg, makeRequest (.response 204 "")
        (fun _ => (Except.ok 0 : Except String Int)) = .error msg) ∧
    (makeRequest (.response 200 "0")
        (fun _ => (Except.ok 0 : Except String Int)) = .ok 0 ∧
     ∃ body, (HTTPOutcome.response 200 "0") = .response 200 body ∧
       (fun _ => (Except.ok 0 : Except String Int)) body = .ok 0) :=
  ⟨⟨by decide, c10_only_200_succeeds.1 Int
      (fun _ => (Except.ok 0 : Except String Int)) 201 "created" (by decide)⟩,
   ⟨by decide, c10_only_200_succeeds.1 Int
      (fun _ => (Except.ok 0 : Except String Int)) 204 "" (by decide)⟩,
   ⟨rfl, c10_only_200_succeeds.2 Int
      (fun _ => (Except.ok 0 : Except String Int))
      (HTTPOutcome.response 200 "0") 0 rfl⟩⟩

/-- C2 witness: the fallback clause at the concrete unknown regions `"xx"`
and `""`. -/
theorem c2_regional_routing_witness :
    ("" ∉ knownRegions ∧ "xx" ∉ knownRegions) ∧
    (getRegionalURL "" = "na1.api.riotgames.com" ∧
     getMatchRegionalURL "" = "americas.api.riotgames.com") ∧
    (getRegionalURL "xx" = "na1.api.riotgames.com" ∧
     getMatchRegionalURL "xx" = "americas.api.riotgames.com") :=
  ⟨⟨by decide, by decide⟩,
   c2_regional_routing.2.2 "" (by decide),
   c2_regional_routing.2.2 "xx" (by decide)⟩

end OPGL
